import Mathlib

/-!
Verification of the retrying Bedrock chatbot service (`src/app.py`).

The Python program is shallowly embedded: JSON/Python values become the
inductive `Json`; the remote Bedrock service becomes a function from the
request body and the attempt index to a result (success body, throttling
signal, or other failure); `time.sleep` calls are instrumented as a list of
slept durations; the Streamlit session-state messages list is threaded
through the retry loop as explicit state; the clock read performed by
`time.strftime` in `local_chatbot_response` becomes an explicit argument.
-/

set_option autoImplicit false

namespace Chatbot

/-- Python/JSON values, as produced by `json.loads` and stored in message
dicts.  Objects keep their fields as an ordered association list. -/
inductive Json where
  | null : Json
  | bool : Bool → Json
  | num : Int → Json
  | str : String → Json
  | arr : List Json → Json
  | obj : List (String × Json) → Json

/-- Python dict lookup / membership on an object field list: `key in d`
holds exactly when `lookupField d key` is `some`, and `d[key]` is the bound
value. -/
def lookupField (fields : List (String × Json)) (key : String) : Option Json :=
  match fields with
  | [] => none
  | (k, v) :: rest => if k = key then some v else lookupField rest key

/-- A chat message dict with "role" and "content" keys, as stored in the
Streamlit session state. -/
structure Message where
  role : String
  content : Json

/-- Outcome of one `invoke_model` call on the service (app.py lines 49-53
and the two `except` arms): a successfully parsed response body (an object,
given by its fields), a `ThrottlingException`, or any other exception with
its `str(e)` description and its `type(e)` rendering. -/
inductive ServiceResult where
  | success : List (String × Json) → ServiceResult
  | throttle : ServiceResult
  | failure : String → String → ServiceResult

/-- The remote service: how it answers a given request body on a given
attempt index. -/
def Service : Type := Json → Nat → ServiceResult

/-- app.py line 33. -/
def max_retries : Nat := 5

/-- app.py line 34 (seconds). -/
def base_delay : Nat := 1

/-- app.py line 67. -/
def noTextMsg : String := "응답에서 텍스트를 찾을 수 없습니다."

/-- app.py line 76. -/
def maxRetriesMsg : String := "최대 재시도 횟수에 도달했습니다. 잠시 후 다시 시도해 주세요."

/-- app.py line 74: the f-string embedding `str(e)` and `type(e)`. -/
def errorMsg (d t : String) : String :=
  "오류가 발생했습니다: " ++ d ++ "\n응답 타입: " ++ t

/-- app.py lines 42-46: the request body built from the full messages
list. -/
def request_body (messages : List Message) : Json :=
  Json.obj
    [("anthropic_version", Json.str "bedrock-2023-05-31"),
     ("max_tokens", Json.num 1000),
     ("messages", Json.arr (messages.map (fun m =>
        Json.obj [("role", Json.str m.role), ("content", m.content)])))]

/-- app.py lines 62-67: extract the text from a parsed response body.  When
the body has a "content" field holding a non-empty list, and the first
element is a dict with a "text" field, that text is returned verbatim; every
other shape falls through to the fixed no-text message. -/
def extract_text (response_body : List (String × Json)) : Json :=
  match lookupField response_body "content" with
  | some (Json.arr elems) =>
    match elems with
    | [] => Json.str noTextMsg
    | first_content :: _ =>
      match first_content with
      | Json.obj ffields =>
        match lookupField ffields "text" with
        | some v => v
        | none => Json.str noTextMsg
      | _ => Json.str noTextMsg
  | _ => Json.str noTextMsg

/-- Instrumented observable outcome of `call_bedrock_api`: the returned
value, the durations passed to `time.sleep` in order, and the number of
attempts (loop iterations that issued a request). -/
structure CallOutcome where
  result : Json
  sleeps : List Nat
  attempts : Nat

/-- app.py lines 36-76: the body of `for retry_count in range(max_retries)`,
with `fuel` the number of remaining iterations.  On success the parsed text
(or no-text message) is returned; on `ThrottlingException` the code sleeps
`base_delay * 2 ** retry_count` seconds and continues the loop; on any other
exception it returns the error message at once; when the loop ends, the
max-retries message is returned.  The messages list is threaded through as
explicit state: the loop never writes to it. -/
def call_loop (service : Service) : List Message → Nat → Nat → CallOutcome × List Message
  | messages, _, 0 => (⟨Json.str maxRetriesMsg, [], 0⟩, messages)
  | messages, retry_count, fuel + 1 =>
    match service (request_body messages) retry_count with
    | ServiceResult.success fields => (⟨extract_text fields, [], 1⟩, messages)
    | ServiceResult.throttle =>
      let r := call_loop service messages (retry_count + 1) fuel
      (⟨r.1.result, base_delay * 2 ^ retry_count :: r.1.sleeps, r.1.attempts + 1⟩, r.2)
    | ServiceResult.failure d t => (⟨Json.str (errorMsg d t), [], 1⟩, messages)

/-- app.py lines 23-76: `call_bedrock_api(client, messages)`, starting at
`retry_count = 0` with `max_retries` iterations available. -/
def call_bedrock_api (service : Service) (messages : List Message) :
    CallOutcome × List Message :=
  call_loop service messages 0 max_retries

/-- app.py line 20: the error reported when client construction fails. -/
def initErrMsg (e : String) : String :=
  "AWS Bedrock 클라이언트 초기화 실패: " ++ e

/-- app.py lines 9-21, body of `init_bedrock_client` without the cache
decorator: the construction (secrets lookup plus `boto3.client`) either
yields a client or raises, which the `except Exception` arm converts to a
reported error and a `None` return.  Result: the returned handle and the
list of error messages shown via `st.error`. -/
def init_bedrock_client {C : Type} (construct : Except String C) :
    Option C × List String :=
  match construct with
  | Except.ok client => (some client, [])
  | Except.error e => (none, [initErrMsg e])

/-- app.py line 8: semantics of the `st.cache_resource` decorator (a library
facility) applied to `init_bedrock_client`.  The cache cell holds the stored
return value when present; on a hit the stored value is returned without
running the function, on a miss the function runs and its return value —
whatever it is, including `None` — is stored.  Result: (handle and reported
errors, cache cell after the call). -/
def cached_init_bedrock_client {C : Type} (cache : Option (Option C))
    (construct : Except String C) :
    (Option C × List String) × Option (Option C) :=
  match cache with
  | some v => ((v, []), some v)
  | none =>
    let r := init_bedrock_client construct
    (r, some r.1)

/-- Python substring test on lists of characters: does the haystack start
with the needle? -/
def startsWithChars : List Char → List Char → Bool
  | _, [] => true
  | [], _ :: _ => false
  | a :: as, b :: bs => a = b && startsWithChars as bs

/-- Python substring test on lists of characters: does the needle occur
anywhere in the haystack? -/
def containsChars : List Char → List Char → Bool
  | hs, ns =>
    if startsWithChars hs ns then true
    else
      match hs with
      | [] => false
      | _ :: rest => containsChars rest ns

/-- The Python expression `needle in haystack` on strings. -/
def pyIn (needle haystack : String) : Bool :=
  containsChars haystack.data needle.data

/-- app.py line 91. -/
def fallbackMsg : String :=
  "흥미로운 질문이네요! AWS Bedrock이 연결되면 더 자세한 답변을 드릴 수 있을 것입니다."

/-- app.py lines 80-85: the `responses` dict in insertion order.  Building
it reads the clock: the reply for "시간" interpolates `time.strftime` of the
current time, passed here as `now`. -/
def responses (now : String) : List (String × String) :=
  [("안녕", "안녕하세요! 무엇을 도와드릴까요?"),
   ("이름", "저는 AI 챗봇입니다."),
   ("날씨", "죄송하지만 실시간 날씨 정보는 제공할 수 없습니다."),
   ("시간", "현재 시간은 대략 " ++ now ++ " 입니다.")]

/-- app.py lines 87-91: `for keyword, response in responses.items(): if
keyword in user_input: return response`, else the fallback. -/
def matchResponses (user_input : String) : List (String × String) → String
  | [] => fallbackMsg
  | (keyword, response) :: rest =>
    if pyIn keyword user_input then response else matchResponses user_input rest

/-- app.py lines 78-91: `local_chatbot_response(user_input)`, with the
clock reading made explicit. -/
def local_chatbot_response (now : String) (user_input : String) : String :=
  matchResponses user_input (responses now)

/-- The wording of the spec for the matcher (section 4.3): the reply of the
first keyword of the mapping occurring as a substring of the input, else the
generic fallback.  Stated with `List.find?` to compare against
`matchResponses`, which embeds the code. -/
def firstKeywordReply (now input : String) : String :=
  match (responses now).find? (fun kr => pyIn kr.1 input) with
  | some kr => kr.2
  | none => fallbackMsg

/-- app.py lines 130-164, online branch with a working client: append the
user message, call the API with the whole history, append the returned text
as the assistant message. -/
def handle_prompt_bedrock (service : Service) (messages : List Message)
    (prompt : String) : List Message :=
  let messages1 := messages ++ [⟨"user", Json.str prompt⟩]
  let r := call_bedrock_api service messages1
  r.2 ++ [⟨"assistant", r.1.result⟩]

/-- A response body whose first content element carries the text "hello". -/
def bodyHello : List (String × Json) :=
  [("content", Json.arr [Json.obj [("type", Json.str "text"), ("text", Json.str "hello")]])]

/-- A response body with an empty content sequence. -/
def bodyEmpty : List (String × Json) := [("content", Json.arr [])]

/-- A response body with no content field at all. -/
def bodyNone : List (String × Json) := []

/-- A service that throttles on attempts 0-3 and succeeds on attempt 4. -/
def svcThrottleFour : Service :=
  fun _ i => if i < 4 then ServiceResult.throttle else ServiceResult.success bodyHello

/-- A service that throttles on every attempt. -/
def svcAlwaysThrottle : Service := fun _ _ => ServiceResult.throttle

/-- A service that fails with a non-throttling error on every attempt. -/
def svcAlwaysFail : Service :=
  fun _ _ => ServiceResult.failure "connection refused" "BotoCoreError"

/-- A first content element that is an object without a text field. -/
def firstNoText : Json := Json.obj [("type", Json.str "tool_use")]

/-- A later content element that does carry a text field. -/
def laterText : Json := Json.obj [("type", Json.str "text"), ("text", Json.str "later")]

/-- A service succeeding at once with `firstNoText` then `laterText` as
content. -/
def svcFirstNoText : Service :=
  fun _ _ => ServiceResult.success [("content", Json.arr [firstNoText, laterText])]

/-- A service that succeeds at once with the "hello" body. -/
def svcHello : Service := fun _ _ => ServiceResult.success bodyHello

/-- A service that succeeds at once with an empty content sequence. -/
def svcEmpty : Service := fun _ _ => ServiceResult.success bodyEmpty

/-- A service that succeeds at once with no content field. -/
def svcNoContent : Service := fun _ _ => ServiceResult.success bodyNone

/-- The value is not an object carrying a "text" field (the shape on which
app.py line 64 falls through to the no-text message). -/
def hasNoTextField (j : Json) : Prop :=
  ∀ ff, j = Json.obj ff → lookupField ff "text" = none

theorem call_loop_zero (s : Service) (m : List Message) (rc : Nat) :
    call_loop s m rc 0 = (⟨Json.str maxRetriesMsg, [], 0⟩, m) := rfl

theorem call_loop_succ_success (s : Service) (m : List Message) (rc fuel : Nat)
    (fields : List (String × Json))
    (h : s (request_body m) rc = ServiceResult.success fields) :
    call_loop s m rc (fuel + 1) = (⟨extract_text fields, [], 1⟩, m) := by
  simp only [call_loop, h]

theorem call_loop_succ_throttle (s : Service) (m : List Message) (rc fuel : Nat)
    (h : s (request_body m) rc = ServiceResult.throttle) :
    call_loop s m rc (fuel + 1) =
      (⟨(call_loop s m (rc + 1) fuel).1.result,
        base_delay * 2 ^ rc :: (call_loop s m (rc + 1) fuel).1.sleeps,
        (call_loop s m (rc + 1) fuel).1.attempts + 1⟩,
       (call_loop s m (rc + 1) fuel).2) := by
  simp only [call_loop, h]

theorem call_loop_succ_failure (s : Service) (m : List Message) (rc fuel : Nat)
    (d t : String) (h : s (request_body m) rc = ServiceResult.failure d t) :
    call_loop s m rc (fuel + 1) = (⟨Json.str (errorMsg d t), [], 1⟩, m) := by
  simp only [call_loop, h]

/-- Claim C1: if the service throttles on attempts 0, 1, 2 and 3 and succeeds
on attempt 4, `call_bedrock_api` sleeps 1, 2, 4 and 8 seconds in that order,
makes exactly 5 attempts, and returns the text extracted from the fifth
response — for every conversation. -/
theorem claim_C1 (s : Service) (m : List Message)
    (hthr : ∀ i, i < 4 → s (request_body m) i = ServiceResult.throttle)
    (fields : List (String × Json))
    (hsucc : s (request_body m) 4 = ServiceResult.success fields) :
    call_bedrock_api s m = (⟨extract_text fields, [1, 2, 4, 8], 5⟩, m) := by
  have h0 := hthr 0 (by norm_num)
  have h1 := hthr 1 (by norm_num)
  have h2 := hthr 2 (by norm_num)
  have h3 := hthr 3 (by norm_num)
  have e4 := call_loop_succ_success s m 4 0 fields hsucc
  have e3 := call_loop_succ_throttle s m 3 1 h3
  have e2 := call_loop_succ_throttle s m 2 2 h2
  have e1 := call_loop_succ_throttle s m 1 3 h1
  have e0 := call_loop_succ_throttle s m 0 4 h0
  norm_num [base_delay] at e0 e1 e2 e3 e4
  rw [show call_bedrock_api s m = call_loop s m 0 5 from rfl, e0, e1, e2, e3, e4]

theorem claim_C1_witness :
    call_bedrock_api svcThrottleFour [] =
      (⟨Json.str "hello", [1, 2, 4, 8], 5⟩, ([] : List Message)) := by
  have h := claim_C1 svcThrottleFour []
    (by intro i hi; interval_cases i <;> rfl) bodyHello rfl
  exact h

/-- Claim C2: if the service throttles on every attempt, `call_bedrock_api`
makes exactly 5 attempts, sleeps 1, 2, 4, 8 and 16 seconds (31 in total,
including a 16-second sleep after the fifth throttled attempt), and returns
the fixed max-retries message. -/
theorem claim_C2 (s : Service) (m : List Message)
    (hthr : ∀ i, i < max_retries → s (request_body m) i = ServiceResult.throttle) :
    call_bedrock_api s m = (⟨Json.str maxRetriesMsg, [1, 2, 4, 8, 16], 5⟩, m) ∧
      (1 + 2 + 4 + 8 + 16 : Nat) = 31 := by
  have h0 := hthr 0 (by norm_num [max_retries])
  have h1 := hthr 1 (by norm_num [max_retries])
  have h2 := hthr 2 (by norm_num [max_retries])
  have h3 := hthr 3 (by norm_num [max_retries])
  have h4 := hthr 4 (by norm_num [max_retries])
  have e4 := call_loop_succ_throttle s m 4 0 h4
  have e3 := call_loop_succ_throttle s m 3 1 h3
  have e2 := call_loop_succ_throttle s m 2 2 h2
  have e1 := call_loop_succ_throttle s m 1 3 h1
  have e0 := call_loop_succ_throttle s m 0 4 h0
  have e5 := call_loop_zero s m 5
  norm_num [base_delay] at e0 e1 e2 e3 e4
  refine ⟨?_, by norm_num⟩
  rw [show call_bedrock_api s m = call_loop s m 0 5 from rfl, e0, e1, e2, e3, e4, e5]

theorem claim_C2_witness :
    call_bedrock_api svcAlwaysThrottle [] =
      (⟨Json.str maxRetriesMsg, [1, 2, 4, 8, 16], 5⟩, ([] : List Message)) := by
  exact (claim_C2 svcAlwaysThrottle [] (by intro i _; rfl)).1

/-- Claim C3: if the service throttles on every attempt before `k` and raises
a non-throttling error on attempt `k`, `call_bedrock_api` returns at once the
message embedding the error description and its type, with no sleep after the
failing attempt (only the `k` backoff sleeps of the earlier throttles) and no
further attempts; in particular a failure on the first attempt gives attempt
count 1 and no sleeps. -/
theorem claim_C3 (s : Service) (m : List Message) (k : Nat) (d t : String)
    (hk : k < max_retries)
    (hthr : ∀ i, i < k → s (request_body m) i = ServiceResult.throttle)
    (hfail : s (request_body m) k = ServiceResult.failure d t) :
    call_bedrock_api s m =
      (⟨Json.str (errorMsg d t),
        (List.range k).map (fun i => base_delay * 2 ^ i), k + 1⟩, m) := by
  have hk5 : k < 5 := hk
  interval_cases k
  · have f0 := call_loop_succ_failure s m 0 4 d t hfail
    norm_num at f0
    rw [show call_bedrock_api s m = call_loop s m 0 5 from rfl, f0]
    rfl
  · have h0 := hthr 0 (by norm_num)
    have f1 := call_loop_succ_failure s m 1 3 d t hfail
    have e0 := call_loop_succ_throttle s m 0 4 h0
    norm_num [base_delay] at e0 f1
    rw [show call_bedrock_api s m = call_loop s m 0 5 from rfl, e0, f1]
    rfl
  · have h0 := hthr 0 (by norm_num)
    have h1 := hthr 1 (by norm_num)
    have f2 := call_loop_succ_failure s m 2 2 d t hfail
    have e1 := call_loop_succ_throttle s m 1 3 h1
    have e0 := call_loop_succ_throttle s m 0 4 h0
    norm_num [base_delay] at e0 e1 f2
    rw [show call_bedrock_api s m = call_loop s m 0 5 from rfl, e0, e1, f2]
    rfl
  · have h0 := hthr 0 (by norm_num)
    have h1 := hthr 1 (by norm_num)
    have h2 := hthr 2 (by norm_num)
    have f3 := call_loop_succ_failure s m 3 1 d t hfail
    have e2 := call_loop_succ_throttle s m 2 2 h2
    have e1 := call_loop_succ_throttle s m 1 3 h1
    have e0 := call_loop_succ_throttle s m 0 4 h0
    norm_num [base_delay] at e0 e1 e2 f3
    rw [show call_bedrock_api s m = call_loop s m 0 5 from rfl, e0, e1, e2, f3]
    rfl
  · have h0 := hthr 0 (by norm_num)
    have h1 := hthr 1 (by norm_num)
    have h2 := hthr 2 (by norm_num)
    have h3 := hthr 3 (by norm_num)
    have f4 := call_loop_succ_failure s m 4 0 d t hfail
    have e3 := call_loop_succ_throttle s m 3 1 h3
    have e2 := call_loop_succ_throttle s m 2 2 h2
    have e1 := call_loop_succ_throttle s m 1 3 h1
    have e0 := call_loop_succ_throttle s m 0 4 h0
    norm_num [base_delay] at e0 e1 e2 e3 f4
    rw [show call_bedrock_api s m = call_loop s m 0 5 from rfl, e0, e1, e2, e3, f4]
    rfl

theorem claim_C3_witness :
    call_bedrock_api svcAlwaysFail [] =
      (⟨Json.str (errorMsg "connection refused" "BotoCoreError"), [], 1⟩,
       ([] : List Message)) := by
  have h := claim_C3 svcAlwaysFail [] 0 "connection refused" "BotoCoreError"
    (by norm_num [max_retries]) (by intro i hi; omega) rfl
  exact h

theorem extract_text_cons (first : Json) (rest : List Json) :
    extract_text [("content", Json.arr (first :: rest))] =
      (match first with
       | Json.obj ff =>
         (match lookupField ff "text" with
          | some v => v
          | none => Json.str noTextMsg)
       | _ => Json.str noTextMsg) := rfl

/-- Claim C4: a successful response whose body is
`\x7b"content":[\x7b"type":"text","text":"hello"\x7d]\x7d` yields the string
"hello" verbatim, while a body with an empty content list or with no content
field yields the fixed no-text fallback, without raising or retrying (one
attempt, no sleeps). -/
theorem claim_C4 (s : Service) (m : List Message) :
    (s (request_body m) 0 = ServiceResult.success bodyHello →
      call_bedrock_api s m = (⟨Json.str "hello", [], 1⟩, m)) ∧
    (s (request_body m) 0 = ServiceResult.success bodyEmpty →
      call_bedrock_api s m = (⟨Json.str noTextMsg, [], 1⟩, m)) ∧
    (s (request_body m) 0 = ServiceResult.success bodyNone →
      call_bedrock_api s m = (⟨Json.str noTextMsg, [], 1⟩, m)) := by
  refine ⟨fun h => ?_, fun h => ?_, fun h => ?_⟩ <;>
  · have e0 := call_loop_succ_success s m 0 4 _ h
    norm_num at e0
    rw [show call_bedrock_api s m = call_loop s m 0 5 from rfl, e0]
    rfl

theorem claim_C4_witness :
    call_bedrock_api svcHello [] = (⟨Json.str "hello", [], 1⟩, ([] : List Message)) ∧
    call_bedrock_api svcEmpty [] = (⟨Json.str noTextMsg, [], 1⟩, ([] : List Message)) ∧
    call_bedrock_api svcNoContent [] = (⟨Json.str noTextMsg, [], 1⟩, ([] : List Message)) :=
  ⟨(claim_C4 svcHello []).1 rfl, (claim_C4 svcEmpty []).2.1 rfl,
   (claim_C4 svcNoContent []).2.2 rfl⟩

/-- Claim C10: only the first content element is consulted.  If the first
element of a non-empty content sequence is not an object carrying a text
field, the call returns the no-text fallback even when a later element does
carry text; and the extraction result does not depend on the elements after
the first at all. -/
theorem claim_C10 :
    (∀ (s : Service) (m : List Message) (first : Json) (rest : List Json),
      hasNoTextField first →
      s (request_body m) 0 =
        ServiceResult.success [("content", Json.arr (first :: rest))] →
      call_bedrock_api s m = (⟨Json.str noTextMsg, [], 1⟩, m)) ∧
    (∀ (first : Json) (r1 r2 : List Json),
      extract_text [("content", Json.arr (first :: r1))] =
        extract_text [("content", Json.arr (first :: r2))]) := by
  constructor
  · intro s m first rest hnt h
    have e0 := call_loop_succ_success s m 0 4 _ h
    norm_num at e0
    rw [show call_bedrock_api s m = call_loop s m 0 5 from rfl, e0]
    have ht : extract_text [("content", Json.arr (first :: rest))] = Json.str noTextMsg := by
      rw [extract_text_cons]
      cases first
      case obj ff => simp [hnt ff rfl]
      all_goals rfl
    rw [ht]
  · intro first r1 r2
    exact (extract_text_cons first r1).trans (extract_text_cons first r2).symm

theorem claim_C10_witness :
    call_bedrock_api svcFirstNoText [] =
      (⟨Json.str noTextMsg, [], 1⟩, ([] : List Message)) := by
  refine claim_C10.1 svcFirstNoText [] firstNoText [laterText] ?_ rfl
  intro ff h
  unfold firstNoText at h
  injection h with h2
  subst h2
  rfl

theorem call_loop_snd (s : Service) (m : List Message) (rc fuel : Nat) :
    (call_loop s m rc fuel).2 = m := by
  induction fuel generalizing rc with
  | zero => rfl
  | succ n ih =>
    cases hsvc : s (request_body m) rc with
    | success fields => simp [call_loop, hsvc]
    | throttle => simp [call_loop, hsvc, ih]
    | failure d t => simp [call_loop, hsvc]

/-- Claim C9: `call_bedrock_api` never mutates the conversation it is given —
for every service behavior the threaded messages state comes back unchanged —
and the surrounding handler appends exactly the user message before the call
and the single returned text as the assistant message after it. -/
theorem claim_C9 :
    (∀ (s : Service) (m : List Message), (call_bedrock_api s m).2 = m) ∧
    (∀ (s : Service) (m : List Message) (prompt : String),
      handle_prompt_bedrock s m prompt =
        (m ++ [⟨"user", Json.str prompt⟩]) ++
          [⟨"assistant",
            (call_bedrock_api s (m ++ [⟨"user", Json.str prompt⟩])).1.result⟩]) := by
  have hsnd : ∀ (s : Service) (m : List Message), (call_bedrock_api s m).2 = m :=
    fun s m => call_loop_snd s m 0 max_retries
  refine ⟨hsnd, fun s m p => ?_⟩
  show (call_bedrock_api s (m ++ [⟨"user", Json.str p⟩])).2 ++
      [⟨"assistant", (call_bedrock_api s (m ++ [⟨"user", Json.str p⟩])).1.result⟩] = _
  rw [hsnd]

/-- Claim C5: `init_bedrock_client` never raises past its boundary: every
failing construction is caught, reported as the fixed error message, and
turned into a `None` handle; a succeeding construction returns the client
with nothing reported. -/
theorem claim_C5 :
    (∀ (C : Type) (e : String),
      @init_bedrock_client C (Except.error e) = (none, [initErrMsg e])) ∧
    (∀ (C : Type) (c : C),
      init_bedrock_client (Except.ok c) = (some c, [])) :=
  ⟨fun _ _ => rfl, fun _ _ => rfl⟩

/-- Claim C6 counterexample: a first call whose construction fails returns
`None`, and a second call in the same process whose construction would
succeed still returns `None` — the cached failure result is reused, so the
construction is not retried on next use as the claim states. -/
theorem claim_C6_counterexample :
    (@cached_init_bedrock_client String none (Except.error "boom")).1.1 = none ∧
    (@cached_init_bedrock_client String
        (@cached_init_bedrock_client String none (Except.error "boom")).2
        (Except.ok "client")).1.1 = none :=
  ⟨rfl, rfl⟩

/-- Claim C6 amended: the handle is constructed at most once per process —
after a first successful construction every later call returns the identical
cached handle without reconstructing — but a failed construction is cached
too: the `None` result is stored, and later calls return it without retrying
the construction. -/
theorem claim_C6_amended :
    (∀ (C : Type) (c : C) (construct2 : Except String C),
      @cached_init_bedrock_client C
          (@cached_init_bedrock_client C none (Except.ok c)).2 construct2 =
        ((some c, []), some (some c))) ∧
    (∀ (C : Type) (e : String) (construct2 : Except String C),
      @cached_init_bedrock_client C
          (@cached_init_bedrock_client C none (Except.error e)).2 construct2 =
        ((none, []), some none)) :=
  ⟨fun _ _ _ => rfl, fun _ _ _ => rfl⟩

/-- Claim C7 counterexample: `local_chatbot_response` is not independent of
the time of the call — the "시간" reply interpolates the clock reading, so the
same input at two different times yields two different outputs. -/
theorem claim_C7_counterexample :
    local_chatbot_response "10:00" "시간" ≠ local_chatbot_response "10:01" "시간" := by
  decide

/-- Claim C7 amended: `local_chatbot_response` reads the clock while building
its reply table; for a fixed clock reading it is a deterministic function of
the input, and for every input in which "시간" does not occur the output is
independent of the clock entirely. -/
theorem claim_C7_amended (now1 now2 input : String)
    (h : pyIn "시간" input = false) :
    local_chatbot_response now1 input = local_chatbot_response now2 input := by
  simp [local_chatbot_response, responses, matchResponses, h]

theorem claim_C7_amended_witness :
    local_chatbot_response "10:00" "xyz" = local_chatbot_response "23:59" "xyz" :=
  claim_C7_amended "10:00" "23:59" "xyz" (by decide)

theorem matchResponses_eq_find (input : String) (l : List (String × String)) :
    matchResponses input l =
      (match List.find? (fun kr => pyIn kr.1 input) l with
       | some kr => kr.2
       | none => fallbackMsg) := by
  induction l with
  | nil => rfl
  | cons kr rest ih =>
    obtain ⟨k, r⟩ := kr
    by_cases hkr : pyIn k input = true
    · simp [matchResponses, List.find?_cons, hkr]
    · simp only [Bool.not_eq_true] at hkr
      simp [matchResponses, List.find?_cons, hkr, ih]

/-- Claim C8: `local_chatbot_response` returns the canned reply of the first
keyword, in the fixed mapping iteration order, that occurs as a substring of
the input (anywhere in the input; the keywords are caseless Korean words, so
exact matching and case-insensitive matching coincide), and the fixed generic
fallback when no keyword occurs; an input containing "날씨" yields the
weather reply and "xyz" yields the fallback. -/
theorem claim_C8 :
    (∀ (now input : String),
      local_chatbot_response now input = firstKeywordReply now input) ∧
    (∀ now : String,
      local_chatbot_response now "오늘 날씨 어때" =
        "죄송하지만 실시간 날씨 정보는 제공할 수 없습니다.") ∧
    (∀ now : String, local_chatbot_response now "xyz" = fallbackMsg) := by
  refine ⟨fun now input => ?_, fun now => rfl, fun now => rfl⟩
  exact matchResponses_eq_find input (responses now)

end Chatbot
